import Mathlib

/-!
# Verification of the sphero-controll exclusive-motion state machine and control loop

Shallow embedding of `src/main.py`: the `SpheroStateManager` state machine
(`acquire_controll` / `release_controll`), the per-tick body of the `while True:`
loop in `main` (button sampling, speed selection, arbitration, heading update,
idle release, skip-press counter, watchdog), and the exception-propagation
structure of the session (`try`/`except`/`finally` nesting with the custom
`TimeoutError(BaseException)` class).

Python integers are modelled as `Int` (Python `%` on a positive modulus agrees
with `Int.emod`), wall-clock time as `Int` (abstract integer time units), and actuator calls as a list of
emitted events per tick.
-/

/-- The `SpheroStates` enum of `main.py`. -/
inductive SpheroStates
  | STOP
  | FORWARD
  | BACKWARD
  | CW_ROTATE
  | ACW_ROTATE
deriving DecidableEq, Repr

/-- `BASE_SPEED = 120` in `main.py`. -/
def BASE_SPEED : Int := 120

/-- `MAX_SPEED = 255` in `main.py`. -/
def MAX_SPEED : Int := 255

/-- `ANGULAR_SPEED = 12` in `main.py`. -/
def ANGULAR_SPEED : Int := 12

/-- `MAX_INTERVAL = 60` in `main.py` (watchdog threshold, in seconds). -/
def MAX_INTERVAL : Int := 60

/-- `SpheroStateManager.acquire_controll`: given the current state and the
requested state, returns `((acquired, state_changed), new_state)`.
Mirrors the three-way branch of the source. -/
def acquire_controll (cur req : SpheroStates) : (Bool × Bool) × SpheroStates :=
  if cur = req then ((true, false), cur)
  else if cur = SpheroStates.STOP then ((true, true), req)
  else ((false, false), cur)

/-- Result of `SpheroStateManager.release_controll`: the returned previous
state, the new internal state, and whether the `warning` log line fired. -/
structure ReleaseResult where
  returned : SpheroStates
  newState : SpheroStates
  warned : Bool
deriving DecidableEq, Repr

/-- `SpheroStateManager.release_controll`: if already `STOP`, logs a warning and
returns `STOP` leaving the state unchanged; otherwise returns the previous
state and resets the internal state to `STOP`. -/
def release_controll (cur : SpheroStates) : ReleaseResult :=
  if cur = SpheroStates.STOP then ⟨cur, cur, true⟩
  else ⟨cur, SpheroStates.STOP, false⟩

/-- The five button signals sampled at the top of a tick (`IOManager`
properties; `pressed = true` means the active-low pin reads pressed). -/
structure Buttons where
  dash : Bool
  forward : Bool
  backward : Bool
  cw : Bool
  acw : Bool
deriving DecidableEq, Repr

/-- Actuator calls made during one tick (`ToyUtil.roll_start` /
`ToyUtil.roll_stop`), in program order. -/
inductive ActuatorEvent
  | roll_start (heading : Int) (speed : Int)
  | roll_stop (heading : Int) (flag : Bool)
deriving DecidableEq, Repr

/-- How a tick of the `while True:` loop ends: fall through to `time.sleep`
(`cont`), `break` out of the loop via the `skip_press_continue` counter
(`breakSkip`), or `raise TimeoutError` from the watchdog check (`timeout`). -/
inductive TickOutcome
  | cont
  | breakSkip
  | timeout
deriving DecidableEq, Repr

/-- The mutable loop variables of `main`: `angle`, `speed`, the
`SpheroStateManager` state, `last_controll_time`, `skip_press_continue`. -/
structure LoopState where
  angle : Int
  speed : Int
  state : SpheroStates
  last_controll_time : Int
  skip_press_continue : Nat
deriving DecidableEq, Repr

/-- The loop state right after initialization in `main` (`angle = 0`,
`speed = 0`, manager in `STOP`, `last_controll_time = time.time()`,
`skip_press_continue = 0`), where `t0` is the session start time. -/
def initialState (t0 : Int) : LoopState :=
  ⟨0, 0, SpheroStates.STOP, t0, 0⟩

/-- The mutable variables of `main` visible to the branch bodies of one tick
(`angle`, `speed`, the manager state, `last_controll_time`), together with the
actuator events issued so far this tick. -/
structure MidState where
  angle : Int
  speed : Int
  sm : SpheroStates
  last : Int
  events : List ActuatorEvent
deriving DecidableEq, Repr

/-- The `if interfaces.btn_forward_pressed:` block: acquire `FORWARD`, reset
`last_controll_time` only on `acquired and state_changed`, then issue
`roll_start(angle, speed)` unconditionally (its call sits outside the
`if acquire_controll and state_changed:` block in the source). -/
def fwdStep (now : Int) (press : Bool) (m : MidState) : MidState :=
  if press then
    ⟨m.angle, m.speed, (acquire_controll m.sm SpheroStates.FORWARD).2,
      if (acquire_controll m.sm SpheroStates.FORWARD).1.1 &&
          (acquire_controll m.sm SpheroStates.FORWARD).1.2 then now else m.last,
      m.events ++ [ActuatorEvent.roll_start m.angle m.speed]⟩
  else m

/-- The `if interfaces.btn_backward_pressed:` block: same shape as the forward
block with heading `(angle + 180) % 360`. -/
def bwdStep (now : Int) (press : Bool) (m : MidState) : MidState :=
  if press then
    ⟨m.angle, m.speed, (acquire_controll m.sm SpheroStates.BACKWARD).2,
      if (acquire_controll m.sm SpheroStates.BACKWARD).1.1 &&
          (acquire_controll m.sm SpheroStates.BACKWARD).1.2 then now else m.last,
      m.events ++ [ActuatorEvent.roll_start ((m.angle + 180) % 360) m.speed]⟩
  else m

/-- The `if interfaces.btn_cw_pressed:` block: acquire `CW_ROTATE`; only if
acquired, reset the timestamp on a genuine transition, advance the angle by
`ANGULAR_SPEED` modulo 360 and issue `roll_start(angle, 0)`. -/
def cwStep (now : Int) (press : Bool) (m : MidState) : MidState :=
  if press then
    if (acquire_controll m.sm SpheroStates.CW_ROTATE).1.1 then
      ⟨(m.angle + ANGULAR_SPEED) % 360, m.speed,
        (acquire_controll m.sm SpheroStates.CW_ROTATE).2,
        if (acquire_controll m.sm SpheroStates.CW_ROTATE).1.2 then now else m.last,
        m.events ++ [ActuatorEvent.roll_start ((m.angle + ANGULAR_SPEED) % 360) 0]⟩
    else ⟨m.angle, m.speed, (acquire_controll m.sm SpheroStates.CW_ROTATE).2, m.last, m.events⟩
  else m

/-- The counter-clockwise block. The source guards it with
`if interfaces.btn_acw_pressed and state.acquire_controll(ACW_ROTATE):` — the
first `acquire_controll` call runs for its side effect and its tuple result is
always truthy — and then calls `acquire_controll` a second time to capture
`(acquire_controll, state_changed)`, so the second call (made on the state the
first call left behind) drives the body. -/
def acwStep (now : Int) (press : Bool) (m : MidState) : MidState :=
  if press then
    if (acquire_controll (acquire_controll m.sm SpheroStates.ACW_ROTATE).2
        SpheroStates.ACW_ROTATE).1.1 then
      ⟨(m.angle - ANGULAR_SPEED) % 360, m.speed,
        (acquire_controll (acquire_controll m.sm SpheroStates.ACW_ROTATE).2
          SpheroStates.ACW_ROTATE).2,
        if (acquire_controll (acquire_controll m.sm SpheroStates.ACW_ROTATE).2
            SpheroStates.ACW_ROTATE).1.2 then now else m.last,
        m.events ++ [ActuatorEvent.roll_start ((m.angle - ANGULAR_SPEED) % 360) 0]⟩
    else
      ⟨m.angle, m.speed,
        (acquire_controll (acquire_controll m.sm SpheroStates.ACW_ROTATE).2
          SpheroStates.ACW_ROTATE).2, m.last, m.events⟩
  else m

/-- The `if not pressed:` block: with no button pressed and a non-`STOP` state,
issue `roll_stop(angle, False)`, call `release_controll` and reset
`last_controll_time`; otherwise do nothing. -/
def idleStep (now : Int) (pressed : Bool) (m : MidState) : MidState :=
  if pressed then m
  else if m.sm = SpheroStates.STOP then m
  else
    ⟨m.angle, m.speed, (release_controll m.sm).newState, now,
      m.events ++ [ActuatorEvent.roll_stop m.angle false]⟩

/-- The four directional branches of one tick, run in source order on the
variables as of the top of the tick (speed already selected). -/
def directionalSteps (now : Int) (b : Buttons) (m : MidState) : MidState :=
  acwStep now b.acw (cwStep now b.cw (bwdStep now b.backward (fwdStep now b.forward m)))

/-- The variables of `main` after the speed selection (`MAX_SPEED` iff the
dash button reads pressed) and the four directional branches of one tick. -/
def tickMid (now : Int) (b : Buttons) (s : LoopState) : MidState :=
  directionalSteps now b
    ⟨s.angle, if b.dash then MAX_SPEED else BASE_SPEED, s.state, s.last_controll_time, []⟩

/-- The variables of `main` after the `if not pressed:` idle-release block of
one tick; `pressed` was set by the dash branch and each directional branch. -/
def tickIdle (now : Int) (b : Buttons) (s : LoopState) : MidState :=
  idleStep now (b.dash || b.forward || b.backward || b.cw || b.acw) (tickMid now b s)

/-- The `skip_press_continue` counter after one tick: it is incremented
exactly when `pressed_skip` survived as `True`, i.e. when neither `else:`
branch of the forward/backward blocks ran. -/
def skipNext (b : Buttons) (s : LoopState) : Nat :=
  if b.forward && b.backward then s.skip_press_continue + 1 else s.skip_press_continue

/-- Repack the mid-tick variables and the skip counter as the loop state
carried to the next iteration. -/
def outLoop (m : MidState) (skip : Nat) : LoopState :=
  ⟨m.angle, m.speed, m.sm, m.last, skip⟩

/-- One iteration of the `while True:` body of `main`, sampled at time `now`
with button readings `b`, starting from loop state `s`. Returns the updated
loop state, the actuator events issued this tick (in order), and how the tick
ended. Statement order follows the source: speed selection (dash), the four
directional branches, the `pressed_skip` counter with its `break` (which skips
the idle and watchdog checks), the `if not pressed:` idle release, and the
watchdog `raise`. -/
def tick (now : Int) (b : Buttons) (s : LoopState) : LoopState × List ActuatorEvent × TickOutcome :=
  if b.forward && b.backward && decide (s.skip_press_continue + 1 > 100) then
    (outLoop (tickMid now b s) (s.skip_press_continue + 1), (tickMid now b s).events,
      TickOutcome.breakSkip)
  else if now - (tickIdle now b s).last > MAX_INTERVAL then
    (outLoop (tickIdle now b s) (skipNext b s), (tickIdle now b s).events, TickOutcome.timeout)
  else
    (outLoop (tickIdle now b s) (skipNext b s), (tickIdle now b s).events, TickOutcome.cont)

/-- The loop state after a tick. -/
def tickState (now : Int) (b : Buttons) (s : LoopState) : LoopState :=
  (tick now b s).1

/-- The actuator events issued during a tick. -/
def tickEvents (now : Int) (b : Buttons) (s : LoopState) : List ActuatorEvent :=
  (tick now b s).2.1

/-- How a tick ended. -/
def tickOutcome (now : Int) (b : Buttons) (s : LoopState) : TickOutcome :=
  (tick now b s).2.2

/-- Folding a sequence of `acquire_controll` calls over the manager state
(request list in call order). -/
def applyAcquires (cur : SpheroStates) : List SpheroStates → SpheroStates
  | [] => cur
  | r :: rs => applyAcquires (acquire_controll cur r).2 rs

/-- `acquire_controll` never moves the state away from a held non-`STOP`
intent. -/
theorem acquire_preserves_held (cur r : SpheroStates) (h : cur ≠ SpheroStates.STOP) :
    (acquire_controll cur r).2 = cur := by
  unfold acquire_controll
  rcases eq_or_ne cur r with he | he
  · rw [if_pos he]
  · rw [if_neg he, if_neg h]

/-- A held non-`STOP` intent survives any sequence of further
`acquire_controll` calls. -/
theorem applyAcquires_preserves_held (cur : SpheroStates) (l : List SpheroStates)
    (h : cur ≠ SpheroStates.STOP) : applyAcquires cur l = cur := by
  induction l with
  | nil => rfl
  | cons r rs ih =>
      unfold applyAcquires
      rw [acquire_preserves_held cur r h]
      exact ih

/-- C1: `acquire_controll` re-affirms an already-held intent with
`(true, false)` and no state change; from `STOP` it transitions to the request
with `(true, true)`; with a different non-`STOP` intent held it denies with
`(false, false)` and no state change; consequently, across any sequence of
further `acquire` calls, a request for a different non-`STOP` intent is denied
with `(false, false)` until release. -/
theorem acquire_controll_spec :
    (∀ cur, acquire_controll cur cur = ((true, false), cur)) ∧
    (∀ req, req ≠ SpheroStates.STOP →
      acquire_controll SpheroStates.STOP req = ((true, true), req)) ∧
    (∀ cur req, cur ≠ req → cur ≠ SpheroStates.STOP →
      acquire_controll cur req = ((false, false), cur)) ∧
    (∀ cur l req, cur ≠ SpheroStates.STOP → req ≠ cur → req ≠ SpheroStates.STOP →
      acquire_controll (applyAcquires cur l) req = ((false, false), cur)) := by
  refine ⟨?_, ?_, ?_, ?_⟩
  · intro cur; cases cur <;> rfl
  · intro req h; cases req <;> simp_all <;> rfl
  · intro cur req h1 h2
    unfold acquire_controll
    rw [if_neg h1, if_neg h2]
  · intro cur l req h1 h2 h3
    rw [applyAcquires_preserves_held cur l h1]
    unfold acquire_controll
    rw [if_neg (fun he => h2 he.symm), if_neg h1]

/-- Witness for C1: with `FORWARD` held, a sequence of `BACKWARD`, `CW_ROTATE`
and `STOP` requests leaves the state at `FORWARD` and a final `BACKWARD`
request is denied. -/
theorem acquire_controll_spec_witness :
    acquire_controll
      (applyAcquires SpheroStates.FORWARD
        [SpheroStates.BACKWARD, SpheroStates.CW_ROTATE, SpheroStates.STOP])
      SpheroStates.BACKWARD = ((false, false), SpheroStates.FORWARD) :=
  acquire_controll_spec.2.2.2 SpheroStates.FORWARD
    [SpheroStates.BACKWARD, SpheroStates.CW_ROTATE, SpheroStates.STOP]
    SpheroStates.BACKWARD (by decide) (by decide) (by decide)

/-- C6: `release_controll` while `STOP` is a warning-only no-op returning
`STOP`; from any held intent it returns that intent and resets the state to
`STOP` without a warning (all five states enumerated). -/
theorem release_controll_spec :
    release_controll SpheroStates.STOP =
      ⟨SpheroStates.STOP, SpheroStates.STOP, true⟩ ∧
    release_controll SpheroStates.FORWARD =
      ⟨SpheroStates.FORWARD, SpheroStates.STOP, false⟩ ∧
    release_controll SpheroStates.BACKWARD =
      ⟨SpheroStates.BACKWARD, SpheroStates.STOP, false⟩ ∧
    release_controll SpheroStates.CW_ROTATE =
      ⟨SpheroStates.CW_ROTATE, SpheroStates.STOP, false⟩ ∧
    release_controll SpheroStates.ACW_ROTATE =
      ⟨SpheroStates.ACW_ROTATE, SpheroStates.STOP, false⟩ := by
  refine ⟨rfl, rfl, rfl, rfl, rfl⟩

/-- No button pressed during the tick. -/
def noButtons : Buttons := ⟨false, false, false, false, false⟩

/-- Only the clockwise-rotation button pressed during the tick. -/
def cwButtons : Buttons := ⟨false, false, false, true, false⟩

/-- Iterate the loop body over a list of sample times (one tick per entry),
threading the loop state. -/
def runTicks (b : Buttons) : List Int → LoopState → LoopState
  | [], s => s
  | t :: ts, s => runTicks b ts (tick t b s).1

/-- The exception classes relevant to the session in `main.py`:
the script's own `TimeoutError` (declared as `class TimeoutError(BaseException)`),
the library's `ToyNotFoundError` (an `Exception` subclass), and any other
`Exception` raised while processing a tick. -/
inductive PyExc
  | timeoutError
  | toyNotFoundError
  | otherException
deriving DecidableEq, Repr

/-- Whether the exception class is a subclass of Python's `Exception`.
The script's `TimeoutError` derives directly from `BaseException`, so it is
not. -/
def isSubclassOfException : PyExc → Bool
  | PyExc.timeoutError => false
  | PyExc.toyNotFoundError => true
  | PyExc.otherException => true

/-- How the session ends when an exception is raised inside the loop body:
whether the `finally:` block's `Terminated` display event fires, and which
exception (if any) propagates past `main` to the caller. -/
structure SessionEnd where
  terminatedEmitted : Bool
  propagated : Option PyExc
deriving DecidableEq, Repr

/-- The `try`/`except`/`finally` structure of `main` applied to an exception
`e` raised inside the loop body: the inner `except Exception as e:` catches
any `Exception` subclass and breaks the loop; anything else escapes the
`with` block, is tested against the outer `except ToyNotFoundError`, and
otherwise propagates to the caller; the `finally:` block emits the
`Terminated` display event on every path. -/
def sessionOnLoopExc (e : PyExc) : SessionEnd :=
  if isSubclassOfException e then ⟨true, none⟩
  else if e = PyExc.toyNotFoundError then ⟨true, none⟩
  else ⟨true, some e⟩

/-- C2: contrary to the claim, when the forward button is pressed while a
different non-`STOP` intent (here `BACKWARD`) is held, `acquire_controll`
denies the request with `(false, false)` and yet the tick still issues
`start_roll(heading, speed)`: the `roll_start` call in the forward branch is
not guarded by the acquisition result. -/
theorem forward_roll_start_despite_denial :
    (acquire_controll SpheroStates.BACKWARD SpheroStates.FORWARD).1 = (false, false) ∧
    (tick 1 ⟨false, true, false, false, false⟩ ⟨0, 0, SpheroStates.BACKWARD, 0, 0⟩).2.1 =
      [ActuatorEvent.roll_start 0 120] ∧
    (tick 1 ⟨false, true, false, false, false⟩ ⟨0, 0, SpheroStates.BACKWARD, 0, 0⟩).1.state =
      SpheroStates.BACKWARD := by
  decide

/-- C3 counterexample: with the dash signal active, no directional signal
active, and `FORWARD` held, the tick neither stops nor releases: the state
stays `FORWARD`, no actuator call is made and `last_controll_time` is not
reset, because the source counts the dash button in `pressed`. -/
theorem dash_blocks_idle_release :
    (tick 1 ⟨true, false, false, false, false⟩ ⟨0, 0, SpheroStates.FORWARD, 0, 0⟩).1.state =
      SpheroStates.FORWARD ∧
    (tick 1 ⟨true, false, false, false, false⟩ ⟨0, 0, SpheroStates.FORWARD, 0, 0⟩).2.1 = [] ∧
    (tick 1 ⟨true, false, false, false, false⟩ ⟨0, 0, SpheroStates.FORWARD, 0, 0⟩).1.last_controll_time
      = 0 := by
  decide

/-- With no button pressed, the directional branches leave the tick variables
at their start-of-tick values (speed freshly selected as `BASE_SPEED`). -/
theorem tickMid_noButtons (now : Int) (s : LoopState) :
    tickMid now noButtons s =
      ⟨s.angle, BASE_SPEED, s.state, s.last_controll_time, []⟩ := rfl

/-- With no button pressed and the state already `STOP`, the idle block does
nothing. -/
theorem tickIdle_noButtons_stop (now : Int) (s : LoopState)
    (h : s.state = SpheroStates.STOP) :
    tickIdle now noButtons s =
      ⟨s.angle, BASE_SPEED, s.state, s.last_controll_time, []⟩ := by
  obtain ⟨a, sp, st, lt, sk⟩ := s
  cases st
  · rfl
  · cases h
  · cases h
  · cases h
  · cases h

/-- With no button pressed and a held (non-`STOP`) state, the idle block
issues `roll_stop`, releases and resets the timestamp. -/
theorem tickIdle_noButtons_held (now : Int) (s : LoopState)
    (h : s.state ≠ SpheroStates.STOP) :
    tickIdle now noButtons s =
      ⟨s.angle, BASE_SPEED, SpheroStates.STOP, now,
        [ActuatorEvent.roll_stop s.angle false]⟩ := by
  obtain ⟨a, sp, st, lt, sk⟩ := s
  cases st
  · exact absurd rfl h
  · rfl
  · rfl
  · rfl
  · rfl

/-- C3 amended: on a tick in which none of the five signals (the four
directional signals and dash) is active, a held intent is stopped and
released: the tick issues `stop_roll(heading, false)`, resets the state to
`STOP` and `last_controll_time` to `now`, and falls through to the sleep; if
the state is already `STOP`, the tick issues no actuator call and changes
nothing but the recomputed `speed`. -/
theorem idle_release_spec (now : Int) (s : LoopState) :
    (s.state ≠ SpheroStates.STOP →
      tick now noButtons s =
        (⟨s.angle, BASE_SPEED, SpheroStates.STOP, now, s.skip_press_continue⟩,
          [ActuatorEvent.roll_stop s.angle false], TickOutcome.cont)) ∧
    (s.state = SpheroStates.STOP →
      (tick now noButtons s).2.1 = [] ∧
      (tick now noButtons s).1 =
        ⟨s.angle, BASE_SPEED, s.state, s.last_controll_time, s.skip_press_continue⟩) := by
  constructor
  · intro h
    have hm := tickIdle_noButtons_held now s h
    have hw : ¬ now - (tickIdle now noButtons s).last > MAX_INTERVAL := by
      rw [hm]
      show ¬ now - now > MAX_INTERVAL
      simp [MAX_INTERVAL]
    unfold tick
    rw [if_neg (by simp [noButtons]), if_neg hw, hm]
    rfl
  · intro h
    have hm := tickIdle_noButtons_stop now s h
    unfold tick
    rw [if_neg (by simp [noButtons]), hm]
    split <;> exact ⟨rfl, rfl⟩

/-- Witness for C3: with `FORWARD` held at heading 7 and all five signals
inactive, the tick at time 5 stops, releases and resets the timestamp. -/
theorem idle_release_spec_witness :
    tick 5 noButtons ⟨7, 0, SpheroStates.FORWARD, 3, 2⟩ =
      (⟨7, BASE_SPEED, SpheroStates.STOP, 5, 2⟩,
        [ActuatorEvent.roll_stop 7 false], TickOutcome.cont) :=
  (idle_release_spec 5 ⟨7, 0, SpheroStates.FORWARD, 3, 2⟩).1 (by decide)

/-- C4: on a genuine `STOP` to `ACW_ROTATE` transition the tick does not reset
`last_controll_time` (it stays 5 although the transition happened at time 10),
because the branch's second `acquire_controll` call sees the state already
moved by the first and reports `state_changed = False`; the clockwise branch
on the same input does reset it. -/
theorem acw_transition_skips_timestamp_reset :
    (tick 10 ⟨false, false, false, false, true⟩ ⟨0, 0, SpheroStates.STOP, 5, 0⟩).1.state =
      SpheroStates.ACW_ROTATE ∧
    (tick 10 ⟨false, false, false, false, true⟩ ⟨0, 0, SpheroStates.STOP, 5, 0⟩).1.last_controll_time
      = 5 ∧
    (tick 10 ⟨false, false, false, true, false⟩ ⟨0, 0, SpheroStates.STOP, 5, 0⟩).1.state =
      SpheroStates.CW_ROTATE ∧
    (tick 10 ⟨false, false, false, true, false⟩ ⟨0, 0, SpheroStates.STOP, 5, 0⟩).1.last_controll_time
      = 10 := by
  decide

/-- C5 counterexample: the watchdog expiry raised inside a tick is the
script's `TimeoutError`, which derives from `BaseException`, so the loop's
`except Exception` does not catch it and it propagates past the session
boundary to the caller of `main` (the `finally:` block still emits
`Terminated`). -/
theorem watchdog_timeout_escapes_session :
    (tick 61 noButtons ⟨0, 0, SpheroStates.STOP, 0, 0⟩).2.2 = TickOutcome.timeout ∧
    sessionOnLoopExc PyExc.timeoutError = ⟨true, some PyExc.timeoutError⟩ := by
  decide

/-- C5 amended: an in-loop error that is an `Exception` subclass (a generic
tick failure, or a `ToyNotFoundError` if one arose in the loop) is caught at
the loop boundary and converted into the `Terminated` lifecycle transition
with nothing propagating to the caller; the watchdog's `TimeoutError`,
subclassing `BaseException`, escapes both handlers and propagates to the
caller, with `Terminated` still emitted by the `finally:` block. -/
theorem loop_error_propagation :
    sessionOnLoopExc PyExc.otherException = ⟨true, none⟩ ∧
    sessionOnLoopExc PyExc.toyNotFoundError = ⟨true, none⟩ ∧
    sessionOnLoopExc PyExc.timeoutError = ⟨true, some PyExc.timeoutError⟩ := by
  decide

theorem fwdStep_speed (now : Int) (p : Bool) (m : MidState) :
    (fwdStep now p m).speed = m.speed := by
  unfold fwdStep; split <;> rfl

theorem bwdStep_speed (now : Int) (p : Bool) (m : MidState) :
    (bwdStep now p m).speed = m.speed := by
  unfold bwdStep; split <;> rfl

theorem cwStep_speed (now : Int) (p : Bool) (m : MidState) :
    (cwStep now p m).speed = m.speed := by
  unfold cwStep
  split
  · split <;> rfl
  · rfl

theorem acwStep_speed (now : Int) (p : Bool) (m : MidState) :
    (acwStep now p m).speed = m.speed := by
  unfold acwStep
  split
  · split <;> rfl
  · rfl

theorem idleStep_speed (now : Int) (p : Bool) (m : MidState) :
    (idleStep now p m).speed = m.speed := by
  unfold idleStep
  split
  · rfl
  · split <;> rfl

theorem tickMid_speed (now : Int) (b : Buttons) (s : LoopState) :
    (tickMid now b s).speed = if b.dash then MAX_SPEED else BASE_SPEED := by
  unfold tickMid directionalSteps
  rw [acwStep_speed, cwStep_speed, bwdStep_speed, fwdStep_speed]

theorem tickIdle_speed (now : Int) (b : Buttons) (s : LoopState) :
    (tickIdle now b s).speed = if b.dash then MAX_SPEED else BASE_SPEED := by
  unfold tickIdle
  rw [idleStep_speed]
  exact tickMid_speed now b s

theorem tick_speed (now : Int) (b : Buttons) (s : LoopState) :
    (tick now b s).1.speed = if b.dash then MAX_SPEED else BASE_SPEED := by
  unfold tick
  split
  · exact tickMid_speed now b s
  · split
    · exact tickIdle_speed now b s
    · exact tickIdle_speed now b s

theorem fwdStep_angle (now : Int) (p : Bool) (m : MidState) :
    (fwdStep now p m).angle = m.angle := by
  unfold fwdStep; split <;> rfl

theorem bwdStep_angle (now : Int) (p : Bool) (m : MidState) :
    (bwdStep now p m).angle = m.angle := by
  unfold bwdStep; split <;> rfl

theorem cwStep_angle (now : Int) (p : Bool) (m : MidState) :
    (cwStep now p m).angle = m.angle ∨
    (cwStep now p m).angle = (m.angle + ANGULAR_SPEED) % 360 := by
  unfold cwStep
  split
  · split
    · exact Or.inr rfl
    · exact Or.inl rfl
  · exact Or.inl rfl

theorem acwStep_angle (now : Int) (p : Bool) (m : MidState) :
    (acwStep now p m).angle = m.angle ∨
    (acwStep now p m).angle = (m.angle - ANGULAR_SPEED) % 360 := by
  unfold acwStep
  split
  · split
    · exact Or.inr rfl
    · exact Or.inl rfl
  · exact Or.inl rfl

theorem idleStep_angle (now : Int) (p : Bool) (m : MidState) :
    (idleStep now p m).angle = m.angle := by
  unfold idleStep
  split
  · rfl
  · split <;> rfl

theorem tickMid_angle_range (now : Int) (b : Buttons) (s : LoopState)
    (h0 : 0 ≤ s.angle) (h1 : s.angle < 360) :
    0 ≤ (tickMid now b s).angle ∧ (tickMid now b s).angle < 360 := by
  unfold tickMid directionalSteps
  have e2 : (bwdStep now b.backward (fwdStep now b.forward
      ⟨s.angle, if b.dash then MAX_SPEED else BASE_SPEED, s.state, s.last_controll_time,
        []⟩)).angle = s.angle := by
    rw [bwdStep_angle, fwdStep_angle]
  rcases cwStep_angle now b.cw (bwdStep now b.backward (fwdStep now b.forward
      ⟨s.angle, if b.dash then MAX_SPEED else BASE_SPEED, s.state, s.last_controll_time,
        []⟩)) with hc | hc <;>
    rcases acwStep_angle now b.acw (cwStep now b.cw (bwdStep now b.backward (fwdStep now b.forward
      ⟨s.angle, if b.dash then MAX_SPEED else BASE_SPEED, s.state, s.last_controll_time,
        []⟩))) with ha | ha <;>
    rw [ha, hc, e2] <;> omega

theorem tick_angle_eq (now : Int) (b : Buttons) (s : LoopState) :
    (tick now b s).1.angle = (tickMid now b s).angle := by
  unfold tick
  split
  · rfl
  · have hi : (tickIdle now b s).angle = (tickMid now b s).angle := by
      unfold tickIdle; rw [idleStep_angle]
    split
    · exact hi
    · exact hi

theorem tick_angle_range (now : Int) (b : Buttons) (s : LoopState)
    (h0 : 0 ≤ s.angle) (h1 : s.angle < 360) :
    0 ≤ (tick now b s).1.angle ∧ (tick now b s).1.angle < 360 := by
  rw [tick_angle_eq]
  exact tickMid_angle_range now b s h0 h1

theorem runTicks_angle_range (b : Buttons) (ts : List Int) (s : LoopState)
    (h0 : 0 ≤ s.angle) (h1 : s.angle < 360) :
    0 ≤ (runTicks b ts s).angle ∧ (runTicks b ts s).angle < 360 := by
  induction ts generalizing s with
  | nil => exact ⟨h0, h1⟩
  | cons t ts ih =>
      obtain ⟨u0, u1⟩ := tick_angle_range t b s h0 h1
      exact ih (tick t b s).1 u0 u1

theorem tick_cw (now : Int) (s : LoopState)
    (h : s.state = SpheroStates.CW_ROTATE ∨ s.state = SpheroStates.STOP) :
    (tick now cwButtons s).1.angle = (s.angle + ANGULAR_SPEED) % 360 ∧
    (tick now cwButtons s).1.state = SpheroStates.CW_ROTATE := by
  obtain ⟨a, sp, st, lt, sk⟩ := s
  rcases h with h | h <;> cases st <;> try cases h
  all_goals
    unfold tick
    rw [if_neg (by simp [cwButtons])]
    split <;> exact ⟨rfl, rfl⟩

theorem runTicks_cw (ts : List Int) (s : LoopState)
    (h : s.state = SpheroStates.CW_ROTATE ∨ s.state = SpheroStates.STOP) :
    (runTicks cwButtons ts s).angle % 360 =
      (s.angle + ANGULAR_SPEED * ts.length) % 360 ∧
    ((runTicks cwButtons ts s).state = SpheroStates.CW_ROTATE ∨
      (runTicks cwButtons ts s).state = SpheroStates.STOP) := by
  induction ts generalizing s with
  | nil => exact ⟨by simp [runTicks], h⟩
  | cons t ts ih =>
      obtain ⟨ha, hst⟩ := ih (tick t cwButtons s).1 (Or.inl (tick_cw t s h).2)
      refine ⟨?_, hst⟩
      show (runTicks cwButtons ts (tick t cwButtons s).1).angle % 360 = _
      rw [ha, (tick_cw t s h).1, Int.emod_add_emod]
      push_cast [List.length_cons]
      ring_nf

/-- C7: the heading starts at 0, every tick keeps it an integer in
`[0, 360)` (each rotation mutation is reduced modulo 360), and a run of
consecutive clockwise-rotation ticks whose angular steps sum to a multiple of
360 returns the heading to its starting value. -/
theorem heading_invariant_spec :
    (∀ t0, (initialState t0).angle = 0) ∧
    (∀ now b s, 0 ≤ s.angle → s.angle < 360 →
      0 ≤ (tick now b s).1.angle ∧ (tick now b s).1.angle < 360) ∧
    (∀ ts s, s.state = SpheroStates.CW_ROTATE ∨ s.state = SpheroStates.STOP →
      0 ≤ s.angle → s.angle < 360 →
      (360 : Int) ∣ ANGULAR_SPEED * ts.length →
      (runTicks cwButtons ts s).angle = s.angle) := by
  refine ⟨fun t0 => rfl, fun now b s h0 h1 => tick_angle_range now b s h0 h1, ?_⟩
  intro ts s h h0 h1 hdvd
  obtain ⟨r0, r1⟩ := runTicks_angle_range cwButtons ts s h0 h1
  obtain ⟨ha, _⟩ := runTicks_cw ts s h
  obtain ⟨k, hk⟩ := hdvd
  calc (runTicks cwButtons ts s).angle
      = (runTicks cwButtons ts s).angle % 360 := (Int.emod_eq_of_lt r0 r1).symm
    _ = (s.angle + ANGULAR_SPEED * ts.length) % 360 := ha
    _ = (s.angle + 360 * k) % 360 := by rw [hk]
    _ = s.angle % 360 := by omega
    _ = s.angle := Int.emod_eq_of_lt h0 h1

/-- Witness for C7: 30 clockwise ticks of 12 degrees from the initial state
(30 times 12 = 360) bring the heading back to 0. -/
theorem heading_invariant_spec_witness :
    (runTicks cwButtons (List.replicate 30 0) (initialState 0)).angle = 0 :=
  heading_invariant_spec.2.2 (List.replicate 30 0) (initialState 0)
    (Or.inr rfl) (by decide) (by decide) ⟨1, by decide⟩

/-- C8: with `MAX_INTERVAL = 60` and no state-changing activity (idle `STOP`
state, no buttons), a tick raises the watchdog `TimeoutError` exactly when
`now - last_controll_time > 60`, continues normally otherwise, and leaves the
state unchanged (but for the recomputed speed), so the session never
terminates via the watchdog before 60 time units have elapsed and terminates
on the first tick sampled after they have. -/
theorem watchdog_spec (now : Int) (s : LoopState) (h : s.state = SpheroStates.STOP) :
    ((tick now noButtons s).2.2 = TickOutcome.timeout ↔
      now - s.last_controll_time > MAX_INTERVAL) ∧
    (now - s.last_controll_time ≤ MAX_INTERVAL →
      (tick now noButtons s).2.2 = TickOutcome.cont) ∧
    (tick now noButtons s).1 =
      ⟨s.angle, BASE_SPEED, s.state, s.last_controll_time, s.skip_press_continue⟩ := by
  have hm := tickIdle_noButtons_stop now s h
  unfold tick
  rw [if_neg (by simp [noButtons]), hm]
  split
  next hw =>
    have hw' : now - s.last_controll_time > MAX_INTERVAL := hw
    exact ⟨⟨fun _ => hw', fun _ => rfl⟩, fun hle => absurd hw' (not_lt.mpr hle), rfl⟩
  next hw =>
    have hw' : ¬ now - s.last_controll_time > MAX_INTERVAL := hw
    refine ⟨?_, fun _ => rfl, rfl⟩
    constructor
    · intro hc
      cases hc
    · intro hgt
      exact absurd hgt hw'

/-- Witness for C8: an idle tick sampled at time 61 with
`last_controll_time = 0` raises the watchdog condition. -/
theorem watchdog_spec_witness :
    (tick 61 noButtons ⟨0, 0, SpheroStates.STOP, 0, 0⟩).2.2 = TickOutcome.timeout :=
  ((watchdog_spec 61 ⟨0, 0, SpheroStates.STOP, 0, 0⟩ rfl).1).mpr (by decide)

theorem bwdStep_events (now : Int) (p : Bool) (m : MidState) :
    ∃ t, (bwdStep now p m).events = m.events ++ t := by
  unfold bwdStep
  split
  · exact ⟨_, rfl⟩
  · exact ⟨[], by simp⟩

theorem cwStep_events (now : Int) (p : Bool) (m : MidState) :
    ∃ t, (cwStep now p m).events = m.events ++ t := by
  unfold cwStep
  split
  · split
    · exact ⟨_, rfl⟩
    · exact ⟨[], by simp⟩
  · exact ⟨[], by simp⟩

theorem acwStep_events (now : Int) (p : Bool) (m : MidState) :
    ∃ t, (acwStep now p m).events = m.events ++ t := by
  unfold acwStep
  split
  · split
    · exact ⟨_, rfl⟩
    · exact ⟨[], by simp⟩
  · exact ⟨[], by simp⟩

theorem idleStep_events (now : Int) (p : Bool) (m : MidState) :
    ∃ t, (idleStep now p m).events = m.events ++ t := by
  unfold idleStep
  split
  · exact ⟨[], by simp⟩
  · split
    · exact ⟨[], by simp⟩
    · exact ⟨_, rfl⟩

theorem tickMid_events_cons (now : Int) (b : Buttons) (s : LoopState)
    (hf : b.forward = true) :
    ∃ r, (tickMid now b s).events =
      ActuatorEvent.roll_start s.angle (if b.dash then MAX_SPEED else BASE_SPEED) :: r := by
  unfold tickMid directionalSteps
  rw [hf]
  obtain ⟨t3, h3⟩ := acwStep_events now b.acw (cwStep now b.cw (bwdStep now b.backward
    (fwdStep now true
      ⟨s.angle, if b.dash then MAX_SPEED else BASE_SPEED, s.state, s.last_controll_time, []⟩)))
  obtain ⟨t2, h2⟩ := cwStep_events now b.cw (bwdStep now b.backward
    (fwdStep now true
      ⟨s.angle, if b.dash then MAX_SPEED else BASE_SPEED, s.state, s.last_controll_time, []⟩))
  obtain ⟨t1, h1⟩ := bwdStep_events now b.backward
    (fwdStep now true
      ⟨s.angle, if b.dash then MAX_SPEED else BASE_SPEED, s.state, s.last_controll_time, []⟩)
  rw [h3, h2, h1]
  show ∃ r, (([] ++ [ActuatorEvent.roll_start s.angle
      (if b.dash then MAX_SPEED else BASE_SPEED)] ++ t1) ++ t2) ++ t3 = _ :: r
  exact ⟨t1 ++ t2 ++ t3, by simp⟩

theorem tickIdle_events_head (now : Int) (b : Buttons) (s : LoopState)
    (hf : b.forward = true) :
    ((tickIdle now b s).events).head? =
      some (ActuatorEvent.roll_start s.angle
        (if b.dash then MAX_SPEED else BASE_SPEED)) := by
  unfold tickIdle
  obtain ⟨t, ht⟩ := idleStep_events now (b.dash || b.forward || b.backward || b.cw || b.acw)
    (tickMid now b s)
  obtain ⟨r, hr⟩ := tickMid_events_cons now b s hf
  rw [ht, hr]
  simp

/-- C9: on every tick, whatever the buttons and prior state, the speed carried
out of the tick is `MAX_SPEED` if and only if the dash signal was active (else
`BASE_SPEED`), and the speed is selected before the motion branches run: the
forward branch's `roll_start`, the first event of the tick, already uses the
freshly selected speed. -/
theorem speed_selection_spec (now : Int) (b : Buttons) (s : LoopState) :
    ((tick now b s).1.speed = if b.dash then MAX_SPEED else BASE_SPEED) ∧
    ((tick now b s).1.speed = MAX_SPEED ↔ b.dash = true) ∧
    (b.forward = true →
      ((tick now b s).2.1).head? =
        some (ActuatorEvent.roll_start s.angle
          (if b.dash then MAX_SPEED else BASE_SPEED))) := by
  have hs := tick_speed now b s
  refine ⟨hs, ?_, ?_⟩
  · rw [hs]
    cases hd : b.dash <;> simp [MAX_SPEED, BASE_SPEED]
  · intro hf
    obtain ⟨r, hr⟩ := tickMid_events_cons now b s hf
    have hi := tickIdle_events_head now b s hf
    unfold tick
    split
    · show ((tickMid now b s).events).head? = _
      rw [hr]
      rfl
    · split
      · exact hi
      · exact hi

/-- Witness for C9: with dash and forward pressed, the tick's first actuator
event is `roll_start(0, 255)`. -/
theorem speed_selection_spec_witness :
    ((tick 1 ⟨true, true, false, false, false⟩ ⟨0, 0, SpheroStates.STOP, 0, 0⟩).2.1).head? =
      some (ActuatorEvent.roll_start 0 255) :=
  (speed_selection_spec 1 ⟨true, true, false, false, false⟩
    ⟨0, 0, SpheroStates.STOP, 0, 0⟩).2.2 rfl

/-- C10: the `skip_press_continue` counter is incremented exactly on ticks in
which the forward and backward buttons are both pressed and is never reset,
and the loop breaks exactly when the incremented counter exceeds 100 — i.e.
on the 101st such tick, cumulatively over the session. -/
theorem skip_press_break_spec (now : Int) (b : Buttons) (s : LoopState) :
    ((tick now b s).1.skip_press_continue =
      if b.forward && b.backward then s.skip_press_continue + 1
      else s.skip_press_continue) ∧
    ((tick now b s).2.2 = TickOutcome.breakSkip ↔
      (b.forward && b.backward) = true ∧ s.skip_press_continue + 1 > 100) := by
  unfold tick
  cases hc : (b.forward && b.backward) with
  | false =>
      simp only [hc, Bool.false_and, Bool.false_eq_true, if_false]
      constructor
      · split <;> · show skipNext b s = _; simp [skipNext, hc]
      · constructor
        · intro hb
          split at hb <;> cases hb
        · rintro ⟨hb, -⟩
          cases hb
  | true =>
      simp only [hc, Bool.true_and]
      by_cases hn : s.skip_press_continue + 1 > 100
      · rw [if_pos (by simpa using hn)]
        refine ⟨rfl, ?_⟩
        simp [hn]
      · rw [if_neg (by simpa using hn)]
        constructor
        · split <;> · show skipNext b s = _; simp [skipNext, hc]
        · constructor
          · intro hb
            split at hb <;> cases hb
          · rintro ⟨-, hb⟩
            exact absurd hb hn
